import Mathlib

/-!
Verification of the multi-agent disaster-response system (`main.py`).

The Python source is shallowly embedded: Python dicts become association
lists with insertion-order semantics (`dget?` / `dset`), Python `sorted`
with `reverse=True` becomes a stable descending insertion sort, Python
float arithmetic on weights is modelled by exact rational arithmetic `ℚ`,
Python `int(...)` truncation becomes `pytrunc`, and Python methods that
can raise `KeyError` become `Except`-valued functions.  Wall-clock reads
(`time.time()`, `datetime.now()`) are passed in as explicit parameters.

The file is organised as definitions first (the embedding), then theorems.
-/

namespace DisasterResponse

/-! ## Definitions -/

/-! ### Python dict operations (insertion-ordered association lists) -/

/-- Lookup in a Python dict: first binding of the key, if any. -/
def dget? {α : Type} (d : List (String × α)) (k : String) : Option α :=
  match d with
  | [] => none
  | (k', v) :: rest => if k' = k then some v else dget? rest k

/-- Python `d[k] = v`: replace the first binding in place, else append,
matching dict insertion-order semantics. -/
def dset {α : Type} (d : List (String × α)) (k : String) (v : α) : List (String × α) :=
  match d with
  | [] => [(k, v)]
  | (k', v') :: rest => if k' = k then (k, v) :: rest else (k', v') :: dset rest k v

/-- Keys of a dict, in order. -/
def dkeys {α : Type} : List (String × α) → List String
  | [] => []
  | (k, _) :: rest => k :: dkeys rest

/-! ### Python `int(...)` truncation and float model

Python's `int(x)` truncates toward zero; floats are modelled exactly in `ℚ`. -/

/-- Python `int(q)`: truncation toward zero. -/
def pytrunc (q : ℚ) : ℤ :=
  if 0 ≤ q then ⌊q⌋ else -⌊-q⌋

/-! ### Python `sorted(..., key=key, reverse=True)`

Python's `sorted` is a stable sort; with `reverse=True` elements of equal
key keep their original relative order.  A stable descending sort is
realised by `List.insertionSort` with the relation `key b ≤ key a`. -/

/-- Stable descending sort by an integer key, as Python's
`sorted(l, key=key, reverse=True)`. -/
def sortByKeyDesc {α : Type} (key : α → ℤ) (l : List α) : List α :=
  List.insertionSort (fun a b => key b ≤ key a) l

/-! ### Data model: demand areas, inventories, allocation plans -/

/-- An AreaDemand entry, as produced by `assess_affected_areas` and consumed
by the relief coordinator (only the fields the coordinator reads). -/
structure Area where
  name : String
  severity : ℤ
  population : ℤ
deriving DecidableEq

/-- A resource inventory: Python dict mapping resource kind to quantity. -/
abbrev Inv := List (String × ℤ)

/-- The per-area part of an allocation plan. -/
abbrev AreaAlloc := List (String × ℤ)

/-- An AllocationPlan: area name to per-area allocation. -/
abbrev Plan := List (String × AreaAlloc)

/-- The sort key `x["severity"] * x["population"]` of `update_priority_areas`. -/
def priorityKey (a : Area) : ℤ :=
  a.severity * a.population

/-- Quantity of resource `r` in a dict of quantities (0 when absent). -/
def invQty (d : List (String × ℤ)) (r : String) : ℤ :=
  (dget? d r).getD 0

/-- Total quantity of resource `r` allocated across all areas of a plan. -/
def plan_allocated (plan : Plan) (r : String) : ℤ :=
  (plan.map (fun e => invQty e.2 r)).sum

/-! ### ReliefCoordinatorAgent.update_priority_areas -/

/-- Embeds `update_priority_areas`: `sorted(area_data, key=lambda x:
x["severity"] * x["population"], reverse=True)` (a stable descending sort). -/
def update_priority_areas (area_data : List Area) : List Area :=
  sortByKeyDesc priorityKey area_data

/-! ### ReliefCoordinatorAgent.optimize_resource_allocation -/

/-- Embeds `sum(a["severity"] * a["population"] for a in self.priority_areas)`. -/
def total_priority_weight (areas : List Area) : ℤ :=
  (areas.map priorityKey).sum

/-- Embeds `area_weight = (severity * population) / total_priority_weight if
total_priority_weight > 0 else 0`, with float division modelled in `ℚ`. -/
def area_weight (areas : List Area) (a : Area) : ℚ :=
  if 0 < total_priority_weight areas then
    (priorityKey a : ℚ) / (total_priority_weight areas : ℚ)
  else 0

/-- Embeds the inner loop of `optimize_resource_allocation`: one pass over the
remaining-inventory dict, allocating `int(total_quantity * area_weight)` of
each resource kind when positive and decrementing the remaining copy. -/
def allocate_resources (w : ℚ) : Inv → AreaAlloc × Inv
  | [] => ([], [])
  | (r, q) :: rest =>
    let aq := pytrunc ((q : ℚ) * w)
    let res := allocate_resources w rest
    if 0 < aq then ((r, aq) :: res.1, (r, q - aq) :: res.2)
    else (res.1, (r, q) :: res.2)

/-- Embeds the outer loop of `optimize_resource_allocation` over
`self.priority_areas`; `priority_areas` is the full held list from which the
(constant) total weight is recomputed at each iteration, the first list
argument the areas still to visit. -/
def allocation_loop (priority_areas : List Area) :
    List Area → Inv → Plan → Plan × Inv
  | [], rem, plan => (plan, rem)
  | a :: rest, rem, plan =>
    let w := area_weight priority_areas a
    let res := allocate_resources w rem
    allocation_loop priority_areas rest res.2 (dset plan a.name res.1)

/-- Embeds `optimize_resource_allocation`: visits the held priority areas in
order over a working copy of `disaster_context.resources` and returns the
allocation plan (the function is total: no error path exists). -/
def optimize_resource_allocation (priority_areas : List Area) (resources : Inv) :
    Plan :=
  (allocation_loop priority_areas priority_areas resources []).1

/-! ### The allocation scheme as the specification words it (for claim C1) -/

/-- Modelled from the claim's words: allocate `floor(remainingQuantity *
areaWeight)` for each resource kind, omit zero allocations from the plan, and
decrement the remaining inventory by the allocated amount. -/
def claim_allocate_resources (w : ℚ) : Inv → AreaAlloc × Inv
  | [] => ([], [])
  | (r, q) :: rest =>
    let aq := ⌊(q : ℚ) * w⌋
    let res := claim_allocate_resources w rest
    (if aq = 0 then res.1 else (r, aq) :: res.1, (r, q - aq) :: res.2)

/-- Modelled from the claim's words: visit areas in descending priority order,
each with weight `severity*population / total` computed once from the original
totals (0 if the total is 0). -/
def claim_scheme_loop (tw : ℤ) : List Area → Inv → Plan → Plan × Inv
  | [], rem, plan => (plan, rem)
  | a :: rest, rem, plan =>
    let w : ℚ := if tw = 0 then 0 else (priorityKey a : ℚ) / (tw : ℚ)
    let res := claim_allocate_resources w rem
    claim_scheme_loop tw rest res.2 (dset plan a.name res.1)

/-- The single-pass proportional scheme exactly as claim C1 words it. -/
def claim_alloc_scheme (area_data : List Area) (resources : Inv) : Plan :=
  let areas := sortByKeyDesc priorityKey area_data
  (claim_scheme_loop (total_priority_weight areas) areas resources []).1

/-! ### Messages and the broker -/

/-- Weather-style data payload; fields are read with `.get(key, 0)`, so each
is optional. -/
structure WeatherData where
  wind_speed : Option ℚ := none
  rainfall : Option ℚ := none
deriving DecidableEq

/-- A logged sample in `data_sources`: `{"timestamp": ..., "data": ...}`.
Timestamps (`datetime.now().isoformat()`) are modelled as naturals that
compare the same way the ISO strings do. -/
structure Sample where
  timestamp : ℕ
  data : WeatherData
deriving DecidableEq

/-- A Prediction record; the Python `"type"` field is called `kind` here. -/
structure Prediction where
  id : String
  kind : String
  risk_level : ℤ
  areas_affected : List String
  recommended_actions : List String
deriving DecidableEq

/-- The `content` dict of a message: the dynamic fields the agents access,
each optional (an absent dict key is `none`); `tag` is the `"type"` key. -/
structure MsgContent where
  tag : Option String := none
  area_data : Option (List Area) := none
  plan : Option Plan := none
  source : Option String := none
  data : Option WeatherData := none
  disaster_type : Option String := none
  location : Option String := none
  alert_type : Option String := none
  message : Option String := none
  areas_affected : Option (List String) := none
  recommended_actions : Option (List String) := none
deriving DecidableEq

/-- A message as built by `Agent.send_message`:
`{"from": ..., "to": ..., "timestamp": ..., "content": ...}`. -/
structure Msg where
  from_ : String
  to_ : String
  timestamp : ℕ
  content : MsgContent
deriving DecidableEq

/-- Embeds `MessageBroker.subscribe`: `self.subscribers[agent_id] = callback`.
`H` is the type of bound handlers. -/
def subscribe {H : Type} (subscribers : List (String × H)) (agent_id : String)
    (callback : H) : List (String × H) :=
  dset subscribers agent_id callback

/-- Embeds `MessageBroker.publish_message`: looks up `message["to"]` in the
subscriber registry.  When registered, the bound callback is invoked with the
message (modelled by returning it as `some`); otherwise only a warning is
logged: the function returns normally (total, no exception) and the registry
(first component) is untouched either way. -/
def publish_message {H : Type} (subscribers : List (String × H)) (message : Msg) :
    List (String × H) × Option H :=
  (subscribers, dget? subscribers message.to_)

/-! ### Shared context and the relief coordinator -/

/-- The shared DisasterContext object; fields the embedded code never touches
are carried as opaque string dicts so frame effects are expressible. -/
structure DisasterContext where
  disaster_type : String
  location : String
  severity : ℤ
  affected_areas : List String
  victims : List (String × String)
  resources : Inv
  volunteers : List (String × String)
  rescue_teams : List (String × String)
  current_tasks : List (String × String)
  data_sources : List (String × String)
deriving DecidableEq

/-- Local state of ReliefCoordinatorAgent. -/
structure ReliefState where
  messages : List Msg := []
  priority_areas : List Area := []
  resource_allocation_plan : Plan := []
deriving DecidableEq

/-- The `new_allocation_plan` message `optimize_resource_allocation` sends to
the volunteer coordinator. -/
def allocation_plan_msg (now : ℕ) (plan : Plan) : Msg :=
  { from_ := "relief_coordinator", to_ := "volunteer_coordinator",
    timestamp := now,
    content := { tag := some "new_allocation_plan", plan := some plan } }

/-- Embeds `ReliefCoordinatorAgent.process_message` (plus the `send_message`
at the end of `optimize_resource_allocation`).  On tag `"need_assessment"`,
`content["area_data"]` is read (a `KeyError` when absent), the held areas are
resorted, and the plan is recomputed from a copy of the shared context's
resources and sent to the volunteer coordinator; any other or absent tag is
ignored.  `now` is the send timestamp. -/
def relief_process_message (now : ℕ) (ctx : DisasterContext) (st : ReliefState)
    (message : Msg) :
    Except String (DisasterContext × ReliefState × List Msg) :=
  let content := message.content
  if content.tag = some "need_assessment" then
    match content.area_data with
    | none => .error "KeyError: area_data"
    | some ad =>
      let pa := update_priority_areas ad
      let plan := optimize_resource_allocation pa ctx.resources
      let m := allocation_plan_msg now plan
      .ok (ctx,
        { st with
          priority_areas := pa,
          resource_allocation_plan := plan,
          messages := st.messages ++ [m] },
        [m])
  else .ok (ctx, st, [])

/-- Embeds `Agent.receive_message` for the relief coordinator: records the
message, then reacts via `process_message`. -/
def relief_receive_message (now : ℕ) (ctx : DisasterContext) (st : ReliefState)
    (message : Msg) :
    Except String (DisasterContext × ReliefState × List Msg) :=
  relief_process_message now ctx
    { st with messages := st.messages ++ [message] } message

/-! ### The volunteer coordinator -/

/-- A volunteer record. -/
structure Volunteer where
  id : String
  name : String
  skills : List String
  location : String
  available : Bool
deriving DecidableEq

/-- A distribution Task; the Python `"type"` field is called `kind` here. -/
structure Task where
  id : String
  kind : String
  description : String
  location : String
  resources : List (String × ℤ)
  required_skills : List String
  priority : ℤ
deriving DecidableEq

/-- Local state of VolunteerCoordinationAgent. -/
structure VolunteerState where
  messages : List Msg := []
  available_volunteers : List (String × Volunteer) := []
  skills_registry : List (String × List String) := []
  pending_tasks : List Task := []
deriving DecidableEq

/-- Embeds the skill loop of `register_volunteer`: for each declared skill,
get-or-create the registry list and append the volunteer id. -/
def register_volunteer_skills (vid : String) :
    List String → List (String × List String) → List (String × List String)
  | [], reg => reg
  | s :: rest, reg =>
    register_volunteer_skills vid rest
      (dset reg s (((dget? reg s).getD []) ++ [vid]))

/-- Embeds `VolunteerCoordinationAgent.register_volunteer`. -/
def register_volunteer (st : VolunteerState) (volunteer : Volunteer) :
    VolunteerState :=
  { st with
    available_volunteers := dset st.available_volunteers volunteer.id volunteer,
    skills_registry :=
      register_volunteer_skills volunteer.id volunteer.skills st.skills_registry }

/-- Embeds the task literal of `generate_distribution_tasks`; `now` is
`int(time.time())` at generation time. -/
def make_task (now : ℕ) (area : String) (resource_type : String)
    (quantity : ℤ) : Task :=
  { id := "dist_" ++ area ++ "_" ++ resource_type ++ "_" ++ toString now,
    kind := "resource_distribution",
    description := "Distribute " ++ toString quantity ++ " " ++ resource_type
      ++ " to " ++ area,
    location := area,
    resources := [(resource_type, quantity)],
    required_skills := ["logistics"],
    priority := 3 }

/-- Embeds `VolunteerCoordinationAgent.generate_distribution_tasks`: one task
per (area, resource kind) pair of the plan, appended to the pending queue. -/
def generate_distribution_tasks (now : ℕ) (st : VolunteerState)
    (allocation_plan : Plan) : VolunteerState :=
  { st with pending_tasks := st.pending_tasks ++
      allocation_plan.flatMap (fun e => e.2.map (fun p => make_task now e.1 p.1 p.2)) }

/-- Embeds `VolunteerCoordinationAgent.process_message`: reacts only to tag
`"new_allocation_plan"` (reading `content["plan"]`, a `KeyError` when
absent); other tags are ignored. -/
def vol_process_message (now : ℕ) (st : VolunteerState) (message : Msg) :
    Except String (VolunteerState × List Msg) :=
  if message.content.tag = some "new_allocation_plan" then
    match message.content.plan with
    | none => .error "KeyError: plan"
    | some plan => .ok (generate_distribution_tasks now st plan, [])
  else .ok (st, [])

/-- Embeds `Agent.receive_message` for the volunteer coordinator. -/
def vol_receive_message (now : ℕ) (st : VolunteerState) (message : Msg) :
    Except String (VolunteerState × List Msg) :=
  vol_process_message now { st with messages := st.messages ++ [message] } message

/-! ### The communication agent -/

/-- Local state of CommunicationAgent; team locations are latitude/longitude
pairs. -/
structure CommState where
  messages : List Msg := []
  rescue_team_locations : List (String × (ℚ × ℚ)) := []
deriving DecidableEq

/-- Embeds `CommunicationAgent.broadcast_alert`: reads
`alert["alert_type"]` and `alert["message"]` (a `KeyError` when either is
absent), builds the normalized payload, and sends it to every registered
rescue team in roster order and then to the volunteer coordinator. -/
def broadcast_alert (now : ℕ) (st : CommState) (alert : MsgContent) :
    Except String (CommState × List Msg) :=
  match alert.alert_type with
  | none => .error "KeyError: alert_type"
  | some atype =>
    match alert.message with
    | none => .error "KeyError: message"
    | some mtext =>
      let payload : MsgContent :=
        { tag := some "emergency_alert",
          alert_type := some atype,
          message := some mtext,
          areas_affected := some (alert.areas_affected.getD []),
          recommended_actions := some (alert.recommended_actions.getD []) }
      let outs :=
        (dkeys st.rescue_team_locations).map
          (fun team_id => Msg.mk "communication" ("rescue_team_" ++ team_id)
            now payload) ++
        [Msg.mk "communication" "volunteer_coordinator" now payload]
      .ok ({ st with messages := st.messages ++ outs }, outs)

/-- Embeds `CommunicationAgent.process_message`: reacts only to tag
`"alert"`; other tags are ignored. -/
def comm_process_message (now : ℕ) (st : CommState) (message : Msg) :
    Except String (CommState × List Msg) :=
  if message.content.tag = some "alert" then
    broadcast_alert now st message.content
  else .ok (st, [])

/-- Embeds `Agent.receive_message` for the communication agent. -/
def comm_receive_message (now : ℕ) (st : CommState) (message : Msg) :
    Except String (CommState × List Msg) :=
  comm_process_message now { st with messages := st.messages ++ [message] } message

/-! ### The analytics agent -/

/-- Local state of AnalyticsPredictionAgent. -/
structure AnalyticsState where
  messages : List Msg := []
  data_sources : List (String × List Sample) := []
  predictions : List (String × Prediction) := []
deriving DecidableEq

/-- Embeds `detect_significant_change`: significant iff the source is
`"weather"` and `data.get("wind_speed", 0) > 50`. -/
def detect_significant_change (source : String) (data : WeatherData) : Bool :=
  decide (source = "weather" ∧ 50 < data.wind_speed.getD 0)

/-- Embeds `get_recent_data`: the `count` most recent samples of a source,
by stable descending sort on timestamp (empty when the source is unknown). -/
def get_recent_data (st : AnalyticsState) (source : String) (count : ℕ) :
    List Sample :=
  match dget? st.data_sources source with
  | none => []
  | some l => (sortByKeyDesc (fun s => (s.timestamp : ℤ)) l).take count

/-- Average wind speed of a sample window:
`sum(d["data"].get("wind_speed", 0) for d in recent) / max(len(recent), 1)`. -/
def avg_wind_speed (recent : List Sample) : ℚ :=
  (recent.map (fun s => s.data.wind_speed.getD 0)).sum /
    ((max recent.length 1 : ℕ) : ℚ)

/-- Embeds `generate_prediction`; `now` is `int(time.time())`.  For the
weather source the risk level is `min(10, int(avg_wind_speed / 10))` over the
5 most recent samples; otherwise the shared context's severity.  The
prediction is recorded in `self.predictions`.  (The rainfall average the
source computes is dead code: it does not enter the prediction.) -/
def generate_prediction (now : ℕ) (ctx : DisasterContext) (st : AnalyticsState)
    (source? : Option String) : AnalyticsState × Prediction :=
  let source := source?.getD "all"
  if source = "weather" then
    let recent := get_recent_data st "weather" 5
    let prediction : Prediction :=
      { id := "pred_" ++ toString now,
        kind := "weather_impact",
        risk_level := min 10 (pytrunc (avg_wind_speed recent / 10)),
        areas_affected := ["Area A", "Area B"],
        recommended_actions :=
          ["Evacuate high-risk areas", "Deploy additional rescue teams"] }
    ({ st with predictions := dset st.predictions prediction.id prediction },
      prediction)
  else
    let prediction : Prediction :=
      { id := "pred_" ++ toString now,
        kind := "general",
        risk_level := ctx.severity,
        areas_affected := [],
        recommended_actions := [] }
    ({ st with predictions := dset st.predictions prediction.id prediction },
      prediction)

/-- Embeds `send_alert`: one message to the communication agent. -/
def send_alert (now : ℕ) (prediction : Prediction) : Msg :=
  { from_ := "analytics", to_ := "communication", timestamp := now,
    content :=
      { tag := some "alert",
        alert_type := some prediction.kind,
        message := some ("High risk detected: " ++ toString prediction.risk_level
          ++ "/10"),
        areas_affected := some prediction.areas_affected,
        recommended_actions := some prediction.recommended_actions } }

/-- Embeds `process_new_data`: appends the sample to the source's log; when
the significance predicate fires, generates a prediction and, when its risk
level is at least 7, sends exactly one alert to the communication agent. -/
def process_new_data (now : ℕ) (ctx : DisasterContext) (st : AnalyticsState)
    (source : String) (data : WeatherData) : AnalyticsState × List Msg :=
  let log := (dget? st.data_sources source).getD []
  let st1 := { st with
    data_sources := dset st.data_sources source (log ++ [⟨now, data⟩]) }
  if detect_significant_change source data then
    let res := generate_prediction now ctx st1 (some source)
    if 7 ≤ res.2.risk_level then
      let m := send_alert now res.2
      ({ res.1 with messages := res.1.messages ++ [m] }, [m])
    else (res.1, [])
  else (st1, [])

/-- Embeds `assess_affected_areas`: three areas with randomized severity in
1..10 and population in 100..10000; the random draws are supplied by the
oracles `randSev`/`randPop` (indexed by loop counter), the only
nondeterminism in the source. -/
def assess_affected_areas (randSev randPop : ℕ → ℤ)
    (disaster_type location : String) : List Area :=
  [ { name := location ++ "_Area_1", severity := randSev 1, population := randPop 1 },
    { name := location ++ "_Area_2", severity := randSev 2, population := randPop 2 },
    { name := location ++ "_Area_3", severity := randSev 3, population := randPop 3 } ]

/-- Embeds `AnalyticsPredictionAgent.process_message`: on
`"request_area_assessment"` reads `content["disaster_type"]` and
`content["location"]` and replies to the sender with a need-assessment; on
`"new_data"` reads `content["source"]` and `content["data"]` and runs
`process_new_data`; other tags are ignored. -/
def analytics_process_message (now : ℕ) (randSev randPop : ℕ → ℤ)
    (ctx : DisasterContext) (st : AnalyticsState) (message : Msg) :
    Except String (AnalyticsState × List Msg) :=
  let content := message.content
  if content.tag = some "request_area_assessment" then
    match content.disaster_type with
    | none => .error "KeyError: disaster_type"
    | some dt =>
      match content.location with
      | none => .error "KeyError: location"
      | some loc =>
        let area_assessment := assess_affected_areas randSev randPop dt loc
        let mcontent : MsgContent :=
          { tag := some "need_assessment", area_data := some area_assessment }
        let m : Msg :=
          { from_ := "analytics", to_ := message.from_, timestamp := now,
            content := mcontent }
        .ok ({ st with messages := st.messages ++ [m] }, [m])
  else if content.tag = some "new_data" then
    match content.source with
    | none => .error "KeyError: source"
    | some source =>
      match content.data with
      | none => .error "KeyError: data"
      | some data =>
        let res := process_new_data now ctx st source data
        .ok (res.1, res.2)
  else .ok (st, [])

/-- Embeds `Agent.receive_message` for the analytics agent. -/
def analytics_receive_message (now : ℕ) (randSev randPop : ℕ → ℤ)
    (ctx : DisasterContext) (st : AnalyticsState) (message : Msg) :
    Except String (AnalyticsState × List Msg) :=
  analytics_process_message now randSev randPop ctx
    { st with messages := st.messages ++ [message] } message

/-! ### The allocation-to-tasks pipeline (for claim C7) -/

/-- One run of the coordination cascade on a need assessment: the relief
coordinator sorts the areas and computes the plan from the inventory, and the
volunteer coordinator turns the delivered plan into distribution tasks;
`now` is the wall-clock second observed during task generation.  All inputs
of the source run are explicit arguments. -/
def run_allocation_pipeline (area_data : List Area) (resources : Inv)
    (vst : VolunteerState) (now : ℕ) : Plan × List Task :=
  let plan := optimize_resource_allocation (update_priority_areas area_data)
    resources
  (plan, (generate_distribution_tasks now vst plan).pending_tasks)

/-- The source's log after `process_new_data` appended the new sample. -/
def source_log_after (st : AnalyticsState) (now : ℕ) (source : String)
    (data : WeatherData) : List Sample :=
  ((dget? st.data_sources source).getD []) ++ [⟨now, data⟩]

/-- The analytics state right after `process_new_data` appended the new
sample (before any prediction is generated). -/
def pnd_st1 (st : AnalyticsState) (now : ℕ) (source : String)
    (data : WeatherData) : AnalyticsState :=
  { st with
    data_sources :=
      dset st.data_sources source (source_log_after st now source data) }

/-! ### The risk formula as claim C8 words it -/

/-- Modelled from claim C8's words: the risk level computed from the average
wind speed of the up-to-5 most recent samples of a log, scaled as
`min(10, floor(average / 10))`. -/
def claim_risk_level (log : List Sample) : ℤ :=
  min 10 ⌊avg_wind_speed ((sortByKeyDesc (fun s => (s.timestamp : ℤ)) log).take 5)
    / 10⌋

/-! ### A concrete shared context (the one `main()` builds) -/

/-- The DisasterContext of `main()` after `update_resources` ran, used as a
concrete input by witnesses. -/
def sample_context : DisasterContext :=
  { disaster_type := "earthquake",
    location := "Los Angeles",
    severity := 8,
    affected_areas := [],
    victims := [],
    resources := [("food", 1000), ("water", 5000), ("medical_supplies", 500),
      ("shelter_kits", 200), ("blankets", 1000)],
    volunteers := [],
    rescue_teams := [],
    current_tasks := [],
    data_sources := [] }

/-! ## Theorems -/

/-! ### Dict lemmas -/

theorem dget?_dset_self {α : Type} (d : List (String × α)) (k : String) (v : α) :
    dget? (dset d k v) k = some v := by
  induction d with
  | nil => simp [dget?, dset]
  | cons p rest ih =>
    by_cases h : p.1 = k
    · simp [dset, dget?, h]
    · simp [dset, dget?, h, ih]

theorem dget?_dset_ne {α : Type} (d : List (String × α)) (k k' : String) (v : α)
    (h : k ≠ k') : dget? (dset d k v) k' = dget? d k' := by
  induction d with
  | nil => simp [dget?, dset, h]
  | cons p rest ih =>
    rcases p with ⟨pk, pv⟩
    by_cases hp : pk = k
    · subst hp
      simp [dset, dget?, h]
    · simp only [dset, if_neg hp]
      by_cases hp' : pk = k'
      · simp [dget?, hp']
      · simp [dget?, hp', ih]

theorem dset_eq_append {α : Type} (d : List (String × α)) (k : String) (v : α)
    (h : k ∉ dkeys d) : dset d k v = d ++ [(k, v)] := by
  induction d with
  | nil => simp [dset]
  | cons p rest ih =>
    rcases p with ⟨pk, pv⟩
    simp only [dkeys, List.mem_cons] at h
    push_neg at h
    simp only [dset, if_neg (fun hh : pk = k => h.1 hh.symm), List.cons_append,
      List.cons.injEq, true_and]
    exact ih (by simpa [dkeys] using h.2)

theorem dget?_mem {α : Type} {d : List (String × α)} {r : String} {v : α}
    (h : dget? d r = some v) : (r, v) ∈ d := by
  induction d with
  | nil => simp [dget?] at h
  | cons p rest ih =>
    rcases p with ⟨pk, pv⟩
    by_cases hp : pk = r
    · subst hp
      have hsome : some pv = some v := by simpa [dget?] using h
      obtain rfl : pv = v := Option.some.inj hsome
      exact List.mem_cons_self _ _
    · simp only [dget?, if_neg hp] at h
      exact List.mem_cons_of_mem _ (ih h)

theorem dget?_eq_none {α : Type} {d : List (String × α)} {r : String}
    (h : r ∉ dkeys d) : dget? d r = none := by
  induction d with
  | nil => rfl
  | cons p rest ih =>
    rcases p with ⟨pk, pv⟩
    simp only [dkeys, List.mem_cons] at h
    push_neg at h
    simp only [dget?, if_neg (fun hh : pk = r => h.1 hh.symm)]
    exact ih h.2

theorem mem_dset {α : Type} {d : List (String × α)} {k : String} {v : α} :
    ∀ e ∈ dset d k v, e ∈ d ∨ e = (k, v) := by
  induction d with
  | nil => simp [dset]
  | cons p rest ih =>
    intro e he
    rcases p with ⟨pk, pv⟩
    by_cases hp : pk = k
    · simp only [dset, if_pos hp] at he
      rcases List.mem_cons.mp he with rfl | he'
      · exact Or.inr rfl
      · exact Or.inl (List.mem_cons_of_mem _ he')
    · simp only [dset, if_neg hp] at he
      rcases List.mem_cons.mp he with rfl | he'
      · exact Or.inl (List.mem_cons_self _ _)
      · rcases ih e he' with h | h
        · exact Or.inl (List.mem_cons_of_mem _ h)
        · exact Or.inr h

/-! ### Truncation lemmas -/

theorem pytrunc_of_nonneg {q : ℚ} (h : 0 ≤ q) : pytrunc q = ⌊q⌋ := by
  simp [pytrunc, h]

theorem pytrunc_mul_bounds {q : ℤ} {w : ℚ} (hq : 0 ≤ q) (hw0 : 0 ≤ w)
    (hw1 : w ≤ 1) :
    pytrunc ((q : ℚ) * w) = ⌊(q : ℚ) * w⌋ ∧ 0 ≤ ⌊(q : ℚ) * w⌋ ∧
      ⌊(q : ℚ) * w⌋ ≤ q := by
  have hq' : (0 : ℚ) ≤ (q : ℚ) := by exact_mod_cast hq
  have hqw : 0 ≤ (q : ℚ) * w := mul_nonneg hq' hw0
  refine ⟨pytrunc_of_nonneg hqw, Int.floor_nonneg.mpr hqw, ?_⟩
  have hle : (q : ℚ) * w ≤ (q : ℚ) := by
    calc (q : ℚ) * w ≤ (q : ℚ) * 1 := mul_le_mul_of_nonneg_left hw1 hq'
    _ = (q : ℚ) := mul_one _
  calc ⌊(q : ℚ) * w⌋ ≤ ⌊(q : ℚ)⌋ := Int.floor_mono hle
  _ = q := Int.floor_intCast q

/-! ### Stable descending sort lemmas -/

theorem sortByKeyDesc_perm {α : Type} (key : α → ℤ) (l : List α) :
    (sortByKeyDesc key l).Perm l :=
  List.perm_insertionSort _ l

theorem sortByKeyDesc_sorted {α : Type} (key : α → ℤ) (l : List α) :
    (sortByKeyDesc key l).Sorted (fun a b => key b ≤ key a) := by
  haveI : IsTotal α (fun a b => key b ≤ key a) :=
    ⟨fun a b => (le_total (key b) (key a)).elim Or.inl Or.inr⟩
  haveI : IsTrans α (fun a b => key b ≤ key a) :=
    ⟨fun _ _ _ hab hbc => le_trans hbc hab⟩
  exact List.sorted_insertionSort _ l

theorem filter_orderedInsert_key {α : Type} (key : α → ℤ) (p : α → Bool)
    (x : α) (l : List α)
    (hp : ∀ y, ¬ (key y ≤ key x) → p y = true → p x = false) :
    (List.orderedInsert (fun a b => key b ≤ key a) x l).filter p =
      (x :: l).filter p := by
  induction l with
  | nil => rfl
  | cons y ys ih =>
    by_cases h : key y ≤ key x
    · simp [List.orderedInsert, h]
    · simp only [List.orderedInsert, if_neg h]
      cases hy : p y with
      | true =>
        have hx : p x = false := hp y h hy
        simp [List.filter_cons, hy, hx, ih]
      | false =>
        simp [List.filter_cons, hy, ih]

theorem sortByKeyDesc_filter_key {α : Type} (key : α → ℤ) (k : ℤ) (l : List α) :
    (sortByKeyDesc key l).filter (fun a => key a = k) =
      l.filter (fun a => key a = k) := by
  induction l with
  | nil => rfl
  | cons x xs ih =>
    have ih' : (List.insertionSort (fun a b => key b ≤ key a) xs).filter
        (fun a => decide (key a = k)) = xs.filter (fun a => decide (key a = k)) := by
      simpa [sortByKeyDesc] using ih
    have step := filter_orderedInsert_key key (fun a => decide (key a = k)) x
      (List.insertionSort (fun a b => key b ≤ key a) xs)
      (by
        intro y hy hpy
        simp only [decide_eq_true_eq] at hpy
        simp only [decide_eq_false_iff_not]
        intro hx
        exact hy (by rw [hpy, ← hx])
        )
    rw [List.filter_cons, ih'] at step
    simpa [sortByKeyDesc, List.insertionSort, List.filter_cons] using step

/-! ### Claim C3 -/

/-- C3: the coordination agent's priority order is a stable descending sort
of the received area-demand list by severity*population: it is a permutation
of the input, pairwise descending in the key (so any strictly-greater-key
area appears strictly earlier), and areas of equal key keep their input
order (the filter at each key value is unchanged). -/
theorem C3_update_priority_areas_stable_desc_sort (l : List Area) :
    (update_priority_areas l).Perm l ∧
    (update_priority_areas l).Sorted (fun a b => priorityKey b ≤ priorityKey a) ∧
    ∀ k : ℤ, (update_priority_areas l).filter (fun a => priorityKey a = k) =
      l.filter (fun a => priorityKey a = k) :=
  ⟨sortByKeyDesc_perm priorityKey l, sortByKeyDesc_sorted priorityKey l,
    fun k => sortByKeyDesc_filter_key priorityKey k l⟩

/-! ### Allocation-step lemmas -/

theorem allocate_resources_cons (w : ℚ) (r : String) (q : ℤ) (rest : Inv) :
    allocate_resources w ((r, q) :: rest) =
      if 0 < pytrunc ((q : ℚ) * w) then
        ((r, pytrunc ((q : ℚ) * w)) :: (allocate_resources w rest).1,
          (r, q - pytrunc ((q : ℚ) * w)) :: (allocate_resources w rest).2)
      else ((allocate_resources w rest).1, (r, q) :: (allocate_resources w rest).2) :=
  rfl

theorem claim_allocate_resources_cons (w : ℚ) (r : String) (q : ℤ) (rest : Inv) :
    claim_allocate_resources w ((r, q) :: rest) =
      (if ⌊(q : ℚ) * w⌋ = 0 then (claim_allocate_resources w rest).1
        else (r, ⌊(q : ℚ) * w⌋) :: (claim_allocate_resources w rest).1,
        (r, q - ⌊(q : ℚ) * w⌋) :: (claim_allocate_resources w rest).2) :=
  rfl

theorem allocate_resources_eq_claim (w : ℚ) (hw0 : 0 ≤ w) (hw1 : w ≤ 1)
    (inv : Inv) (hinv : ∀ p ∈ inv, 0 ≤ p.2) :
    allocate_resources w inv = claim_allocate_resources w inv := by
  induction inv with
  | nil => rfl
  | cons p rest ih =>
    rcases p with ⟨r, q⟩
    have hq : 0 ≤ q := hinv (r, q) (List.mem_cons_self _ _)
    have ih' := ih (fun p hp => hinv p (List.mem_cons_of_mem _ hp))
    obtain ⟨htr, hfl0, _⟩ := pytrunc_mul_bounds hq hw0 hw1
    rw [allocate_resources_cons, claim_allocate_resources_cons, htr, ih']
    by_cases h : 0 < ⌊(q : ℚ) * w⌋
    · rw [if_pos h, if_neg (by omega)]
    · have h0 : ⌊(q : ℚ) * w⌋ = 0 := le_antisymm (by omega) hfl0
      rw [if_neg h, if_pos h0, h0, sub_zero]

theorem allocate_resources_nonneg (w : ℚ) (hw0 : 0 ≤ w) (hw1 : w ≤ 1)
    (inv : Inv) (hinv : ∀ p ∈ inv, 0 ≤ p.2) :
    (∀ p ∈ (allocate_resources w inv).1, 0 < p.2) ∧
    (∀ p ∈ (allocate_resources w inv).2, 0 ≤ p.2) := by
  induction inv with
  | nil => exact ⟨by simp [allocate_resources], by simp [allocate_resources]⟩
  | cons p rest ih =>
    rcases p with ⟨r, q⟩
    have hq : 0 ≤ q := hinv (r, q) (List.mem_cons_self _ _)
    have ih' := ih (fun p hp => hinv p (List.mem_cons_of_mem _ hp))
    obtain ⟨htr, hfl0, hflq⟩ := pytrunc_mul_bounds hq hw0 hw1
    rw [allocate_resources_cons, htr]
    by_cases h : 0 < ⌊(q : ℚ) * w⌋
    · rw [if_pos h]
      constructor
      · intro p hp
        rcases List.mem_cons.mp hp with rfl | hp'
        · exact h
        · exact ih'.1 p hp'
      · intro p hp
        rcases List.mem_cons.mp hp with rfl | hp'
        · simp only
          omega
        · exact ih'.2 p hp'
    · rw [if_neg h]
      constructor
      · exact ih'.1
      · intro p hp
        rcases List.mem_cons.mp hp with rfl | hp'
        · exact hq
        · exact ih'.2 p hp'

theorem allocate_resources_zero (inv : Inv) :
    allocate_resources 0 inv = ([], inv) := by
  induction inv with
  | nil => rfl
  | cons p rest ih =>
    rcases p with ⟨r, q⟩
    have h0 : pytrunc ((q : ℚ) * 0) = 0 := by simp [pytrunc]
    rw [allocate_resources_cons, h0, ih, if_neg (lt_irrefl (0 : ℤ))]

theorem allocate_resources_keys (w : ℚ) (inv : Inv) :
    dkeys (allocate_resources w inv).2 = dkeys inv ∧
    (∀ r, r ∈ dkeys (allocate_resources w inv).1 → r ∈ dkeys inv) := by
  induction inv with
  | nil => exact ⟨rfl, by simp [allocate_resources, dkeys]⟩
  | cons p rest ih =>
    rcases p with ⟨k, q⟩
    rw [allocate_resources_cons]
    by_cases h : 0 < pytrunc ((q : ℚ) * w)
    · rw [if_pos h]
      refine ⟨by simp [dkeys, ih.1], ?_⟩
      intro r hr
      simp only [dkeys, List.mem_cons] at hr ⊢
      rcases hr with rfl | hr
      · exact Or.inl rfl
      · exact Or.inr (ih.2 r hr)
    · rw [if_neg h]
      refine ⟨by simp [dkeys, ih.1], ?_⟩
      intro r hr
      exact List.mem_cons_of_mem _ (ih.2 r hr)

theorem allocate_resources_acct (w : ℚ) (inv : Inv)
    (hnd : (dkeys inv).Nodup) (r : String) :
    invQty (allocate_resources w inv).2 r =
      invQty inv r - invQty (allocate_resources w inv).1 r := by
  induction inv with
  | nil => simp [allocate_resources, invQty, dget?]
  | cons p rest ih =>
    rcases p with ⟨k, q⟩
    have hcons := List.nodup_cons.mp (by simpa [dkeys] using hnd)
    have hk : k ∉ dkeys rest := hcons.1
    have ih' := ih hcons.2
    rw [allocate_resources_cons]
    by_cases h : 0 < pytrunc ((q : ℚ) * w)
    · rw [if_pos h]
      by_cases hr : k = r
      · subst hr
        simp [invQty, dget?]
      · simp only [invQty, dget?, if_neg hr]
        exact ih'
    · rw [if_neg h]
      by_cases hr : k = r
      · subst hr
        have hnone : dget? (allocate_resources w rest).1 k = none :=
          dget?_eq_none (fun hmem => hk ((allocate_resources_keys w rest).2 k hmem))
        simp [invQty, dget?, hnone]
      · simp only [invQty, dget?, if_neg hr]
        exact ih'

/-! ### Weight lemmas -/

theorem total_priority_weight_nonneg (areas : List Area)
    (h : ∀ a ∈ areas, 0 ≤ priorityKey a) : 0 ≤ total_priority_weight areas :=
  List.sum_nonneg (by
    intro x hx
    obtain ⟨a, ha, rfl⟩ := List.mem_map.mp hx
    exact h a ha)

theorem area_weight_bounds (areas : List Area)
    (h : ∀ a ∈ areas, 0 ≤ priorityKey a) (a : Area) (ha : a ∈ areas) :
    0 ≤ area_weight areas a ∧ area_weight areas a ≤ 1 := by
  unfold area_weight
  by_cases htw : 0 < total_priority_weight areas
  · rw [if_pos htw]
    have h0 : (0 : ℚ) < (total_priority_weight areas : ℚ) := by exact_mod_cast htw
    constructor
    · exact div_nonneg (by exact_mod_cast h a ha) h0.le
    · rw [div_le_one h0]
      exact_mod_cast List.single_le_sum
        (fun x hx => by
          obtain ⟨b, hb, rfl⟩ := List.mem_map.mp hx
          exact h b hb)
        _ (List.mem_map_of_mem priorityKey ha)
  · rw [if_neg htw]
    exact ⟨le_refl 0, zero_le_one⟩

theorem area_weight_eq_claim (areas : List Area)
    (h : ∀ a ∈ areas, 0 ≤ priorityKey a) (a : Area) :
    area_weight areas a =
      (if total_priority_weight areas = 0 then 0
        else (priorityKey a : ℚ) / (total_priority_weight areas : ℚ)) := by
  have h0 := total_priority_weight_nonneg areas h
  unfold area_weight
  by_cases htw : total_priority_weight areas = 0
  · rw [htw]
    rw [if_neg (lt_irrefl (0 : ℤ)), if_pos rfl]
  · rw [if_pos (lt_of_le_of_ne h0 (Ne.symm htw)), if_neg htw]

/-! ### Allocation-loop lemmas -/

theorem allocation_loop_cons (pa : List Area) (a : Area) (rest : List Area)
    (rem : Inv) (plan : Plan) :
    allocation_loop pa (a :: rest) rem plan =
      allocation_loop pa rest (allocate_resources (area_weight pa a) rem).2
        (dset plan a.name (allocate_resources (area_weight pa a) rem).1) :=
  rfl

theorem claim_scheme_loop_cons (tw : ℤ) (a : Area) (rest : List Area)
    (rem : Inv) (plan : Plan) :
    claim_scheme_loop tw (a :: rest) rem plan =
      claim_scheme_loop tw rest
        (claim_allocate_resources
          (if tw = 0 then 0 else (priorityKey a : ℚ) / (tw : ℚ)) rem).2
        (dset plan a.name
          (claim_allocate_resources
            (if tw = 0 then 0 else (priorityKey a : ℚ) / (tw : ℚ)) rem).1) :=
  rfl

theorem allocation_loop_eq_claim (pa : List Area)
    (hkeys : ∀ a ∈ pa, 0 ≤ priorityKey a) :
    ∀ (vis : List Area) (rem : Inv) (plan : Plan),
      (∀ a ∈ vis, a ∈ pa) → (∀ p ∈ rem, 0 ≤ p.2) →
      allocation_loop pa vis rem plan =
        claim_scheme_loop (total_priority_weight pa) vis rem plan := by
  intro vis
  induction vis with
  | nil =>
    intro rem plan _ _
    rfl
  | cons a rest ih =>
    intro rem plan hmem hrem
    have ha : a ∈ pa := hmem a (List.mem_cons_self _ _)
    obtain ⟨hw0, hw1⟩ := area_weight_bounds pa hkeys a ha
    have e1 : claim_allocate_resources
        (if total_priority_weight pa = 0 then 0
          else (priorityKey a : ℚ) / (total_priority_weight pa : ℚ)) rem =
        allocate_resources (area_weight pa a) rem := by
      rw [← area_weight_eq_claim pa hkeys a]
      exact (allocate_resources_eq_claim _ hw0 hw1 rem hrem).symm
    rw [allocation_loop_cons, claim_scheme_loop_cons, e1]
    exact ih _ _ (fun b hb => hmem b (List.mem_cons_of_mem _ hb))
      (allocate_resources_nonneg _ hw0 hw1 rem hrem).2

theorem allocation_loop_plan_zero (pa : List Area)
    (htw : ¬ 0 < total_priority_weight pa) :
    ∀ (vis : List Area) (rem : Inv) (plan : Plan),
      (∀ e ∈ plan, e.2 = ([] : AreaAlloc)) →
      ∀ e ∈ (allocation_loop pa vis rem plan).1, e.2 = [] := by
  intro vis
  induction vis with
  | nil =>
    intro rem plan hplan
    exact hplan
  | cons a rest ih =>
    intro rem plan hplan
    have hw : area_weight pa a = 0 := by
      unfold area_weight
      rw [if_neg htw]
    rw [allocation_loop_cons, hw, allocate_resources_zero]
    exact ih _ _ (fun e he => (mem_dset e he).elim (hplan e) (fun hh => by rw [hh]))

theorem allocation_loop_nonneg (pa : List Area)
    (hkeys : ∀ a ∈ pa, 0 ≤ priorityKey a) :
    ∀ (vis : List Area) (rem : Inv) (plan : Plan),
      (∀ a ∈ vis, a ∈ pa) → (∀ p ∈ rem, 0 ≤ p.2) →
      ∀ p ∈ (allocation_loop pa vis rem plan).2, 0 ≤ p.2 := by
  intro vis
  induction vis with
  | nil =>
    intro rem plan _ hrem
    exact hrem
  | cons a rest ih =>
    intro rem plan hmem hrem
    obtain ⟨hw0, hw1⟩ := area_weight_bounds pa hkeys a (hmem a (List.mem_cons_self _ _))
    rw [allocation_loop_cons]
    exact ih _ _ (fun b hb => hmem b (List.mem_cons_of_mem _ hb))
      (allocate_resources_nonneg _ hw0 hw1 rem hrem).2

theorem mem_dkeys_dset {α : Type} (d : List (String × α)) (k r : String) (v : α) :
    r ∈ dkeys (dset d k v) ↔ r ∈ dkeys d ∨ r = k := by
  induction d with
  | nil => simp [dset, dkeys]
  | cons p rest ih =>
    rcases p with ⟨pk, pv⟩
    by_cases hp : pk = k
    · subst hp
      simp only [dset, if_pos rfl, dkeys, List.mem_cons]
      tauto
    · simp only [dset, if_neg hp, dkeys, List.mem_cons, ih]
      tauto

theorem plan_allocated_append (d : Plan) (n : String) (al : AreaAlloc) (r : String) :
    plan_allocated (d ++ [(n, al)]) r = plan_allocated d r + invQty al r := by
  simp [plan_allocated]

theorem allocation_loop_master (pa : List Area)
    (hkeys : ∀ a ∈ pa, 0 ≤ priorityKey a) :
    ∀ (vis : List Area) (rem : Inv) (plan : Plan),
      (∀ a ∈ vis, a ∈ pa) → (∀ p ∈ rem, 0 ≤ p.2) → (dkeys rem).Nodup →
      (vis.map Area.name).Nodup → (∀ a ∈ vis, a.name ∉ dkeys plan) →
      (∀ r, plan_allocated (allocation_loop pa vis rem plan).1 r +
          invQty (allocation_loop pa vis rem plan).2 r =
        plan_allocated plan r + invQty rem r) ∧
      (∀ p ∈ (allocation_loop pa vis rem plan).2, 0 ≤ p.2) ∧
      (∀ e ∈ (allocation_loop pa vis rem plan).1,
        e ∈ plan ∨ ∀ p ∈ e.2, 0 < p.2) := by
  intro vis
  induction vis with
  | nil =>
    intro rem plan _ hrem _ _ _
    exact ⟨fun _ => rfl, hrem, fun e he => Or.inl he⟩
  | cons a rest ih =>
    intro rem plan hmem hrem hnd hnames hplan
    have ha : a ∈ pa := hmem a (List.mem_cons_self _ _)
    obtain ⟨hw0, hw1⟩ := area_weight_bounds pa hkeys a ha
    obtain ⟨hpos, hnn⟩ := allocate_resources_nonneg _ hw0 hw1 rem hrem
    have hkeq := (allocate_resources_keys (area_weight pa a) rem).1
    have hnamecons : a.name ∉ rest.map Area.name ∧ (rest.map Area.name).Nodup := by
      rw [List.map_cons] at hnames
      exact List.nodup_cons.mp hnames
    have hsetapp : dset plan a.name (allocate_resources (area_weight pa a) rem).1 =
        plan ++ [(a.name, (allocate_resources (area_weight pa a) rem).1)] :=
      dset_eq_append _ _ _ (hplan a (List.mem_cons_self _ _))
    have hih := ih (allocate_resources (area_weight pa a) rem).2
      (dset plan a.name (allocate_resources (area_weight pa a) rem).1)
      (fun b hb => hmem b (List.mem_cons_of_mem _ hb))
      hnn (hkeq ▸ hnd) hnamecons.2
      (by
        intro b hb hbmem
        rcases (mem_dkeys_dset plan a.name b.name _).mp hbmem with hin | heqn
        · exact hplan b (List.mem_cons_of_mem _ hb) hin
        · exact hnamecons.1 (heqn ▸ List.mem_map_of_mem Area.name hb))
    refine ⟨?_, ?_, ?_⟩
    · intro r
      have h1 := hih.1 r
      have h2 := allocate_resources_acct (area_weight pa a) rem hnd r
      rw [allocation_loop_cons, hsetapp]
      rw [hsetapp, plan_allocated_append] at h1
      omega
    · rw [allocation_loop_cons]
      exact hih.2.1
    · rw [allocation_loop_cons]
      intro e he
      rcases hih.2.2 e he with hin | hposal
      · rcases mem_dset e hin with hin' | heq
        · exact Or.inl hin'
        · exact Or.inr (fun p hp => hpos p (by rw [heq] at hp; exact hp))
      · exact Or.inr hposal

/-! ### Claim C1 -/

/-- C1: for a held list of positive-severity, positive-population demand
areas and a non-negative inventory, the coordination agent's allocation
equals the single-pass proportional scheme worded by the claim (descending
priority order, weights from the original totals, floor allocations from a
running remaining inventory, zero allocations omitted); and when the total
priority weight is 0 every area receives an empty allocation (the embedded
function is total, so no error is raised). -/
theorem C1_optimize_resource_allocation_is_single_pass_proportional
    (ad : List Area) (inv : Inv) :
    ((∀ a ∈ ad, 0 < a.severity ∧ 0 < a.population) →
      (∀ p ∈ inv, 0 ≤ p.2) →
      optimize_resource_allocation (update_priority_areas ad) inv =
        claim_alloc_scheme ad inv) ∧
    (total_priority_weight (update_priority_areas ad) = 0 →
      ∀ e ∈ optimize_resource_allocation (update_priority_areas ad) inv,
        e.2 = ([] : AreaAlloc)) := by
  constructor
  · intro hpos hinv
    have hkeys : ∀ a ∈ update_priority_areas ad, 0 ≤ priorityKey a := by
      intro a haup
      have ha' : a ∈ ad := ((sortByKeyDesc_perm priorityKey ad).mem_iff).mp haup
      exact mul_nonneg (hpos a ha').1.le (hpos a ha').2.le
    show (allocation_loop (update_priority_areas ad) (update_priority_areas ad)
        inv []).1 =
      (claim_scheme_loop (total_priority_weight (sortByKeyDesc priorityKey ad))
        (sortByKeyDesc priorityKey ad) inv []).1
    exact congrArg Prod.fst
      (allocation_loop_eq_claim (update_priority_areas ad) hkeys
        (update_priority_areas ad) inv [] (fun _ h => h) hinv)
  · intro htw e he
    exact allocation_loop_plan_zero (update_priority_areas ad) (by omega)
      (update_priority_areas ad) inv [] (by simp) e he

/-- Witness for C1 at a concrete input: two areas, two resource kinds. -/
theorem C1_single_pass_proportional_witness :
    optimize_resource_allocation
        (update_priority_areas
          [⟨"A", 2, 100⟩, ⟨"B", 9, 50⟩])
        [("food", 1000), ("water", 5000)] =
      claim_alloc_scheme [⟨"A", 2, 100⟩, ⟨"B", 9, 50⟩]
        [("food", 1000), ("water", 5000)] :=
  (C1_optimize_resource_allocation_is_single_pass_proportional
      [⟨"A", 2, 100⟩, ⟨"B", 9, 50⟩] [("food", 1000), ("water", 5000)]).1
    (by decide) (by decide)

/-- C1 as stated quantifies over *every* inventory mapping, and there it
fails: with the positive-priority area "A" and the inventory `food ↦ -5`,
the code's guard `allocated_quantity > 0` skips the negative allocation
`int(-5 * 1.0) = -5`, while the claim's scheme omits only *zero*
allocations and so allocates `floor(-5 * 1) = -5`. -/
theorem C1_counterexample_negative_inventory :
    (optimize_resource_allocation (update_priority_areas [⟨"A", 1, 1⟩])
        [("food", -5)] =
      claim_alloc_scheme [⟨"A", 1, 1⟩] [("food", -5)]) = False := by
  apply eq_false
  intro h
  have h1 : optimize_resource_allocation (update_priority_areas [⟨"A", 1, 1⟩])
      [("food", -5)] = [("A", [])] := by
    norm_num +decide [optimize_resource_allocation, allocation_loop,
      allocate_resources, area_weight, total_priority_weight, priorityKey,
      update_priority_areas, sortByKeyDesc, List.insertionSort,
      List.orderedInsert, pytrunc, dset]
  have h2 : claim_alloc_scheme [⟨"A", 1, 1⟩] [("food", -5)] =
      [("A", [("food", -5)])] := by
    norm_num +decide [claim_alloc_scheme, claim_scheme_loop,
      claim_allocate_resources, total_priority_weight, priorityKey,
      sortByKeyDesc, List.insertionSort, List.orderedInsert, dset]
  rw [h1, h2] at h
  exact absurd h (by decide)

/-! ### Claim C2 -/

/-- C2: for a plan produced by `optimize_resource_allocation` from a held
area list with non-negative priority keys and pairwise-distinct names and a
non-negative inventory with distinct keys (as Python dicts guarantee): the
total allocated per resource kind never exceeds the inventory at
plan-generation time, every allocated quantity is positive (hence
non-negative), and the running remaining inventory is non-negative after
every prefix of the area visits. -/
theorem C2_allocation_conservation_and_nonnegativity
    (pa : List Area) (inv : Inv)
    (h1 : ∀ a ∈ pa, 0 ≤ priorityKey a)
    (h2 : ∀ p ∈ inv, 0 ≤ p.2)
    (h3 : (dkeys inv).Nodup)
    (h4 : (pa.map Area.name).Nodup) :
    (∀ r, plan_allocated (optimize_resource_allocation pa inv) r ≤ invQty inv r) ∧
    (∀ e ∈ optimize_resource_allocation pa inv, ∀ p ∈ e.2, 0 < p.2) ∧
    (∀ k, ∀ p ∈ (allocation_loop pa (pa.take k) inv []).2, 0 ≤ p.2) := by
  obtain ⟨hacct, hnn, hentries⟩ := allocation_loop_master pa h1 pa inv []
    (fun _ h => h) h2 h3 h4 (by simp [dkeys])
  refine ⟨?_, ?_, ?_⟩
  · intro r
    have h := hacct r
    have hq : 0 ≤ invQty (allocation_loop pa pa inv []).2 r := by
      unfold invQty
      cases hg : dget? (allocation_loop pa pa inv []).2 r with
      | none => simp
      | some v => simpa using hnn (r, v) (dget?_mem hg)
    have hplan0 : plan_allocated ([] : Plan) r = 0 := rfl
    unfold optimize_resource_allocation
    omega
  · intro e he p hp
    rcases hentries e he with h | h
    · simp at h
    · exact h p hp
  · intro k
    exact allocation_loop_nonneg pa h1 (pa.take k) inv []
      (fun a ha => List.take_subset k pa ha) h2

/-- Witness for C2 at a concrete input. -/
theorem C2_allocation_conservation_witness :
    (∀ r, plan_allocated
        (optimize_resource_allocation
          [⟨"A", 8, 5000⟩, ⟨"B", 2, 1000⟩]
          [("food", 1000), ("water", 5000)]) r ≤
      invQty [("food", 1000), ("water", 5000)] r) ∧
    (∀ e ∈ optimize_resource_allocation
        [⟨"A", 8, 5000⟩, ⟨"B", 2, 1000⟩]
        [("food", 1000), ("water", 5000)], ∀ p ∈ e.2, 0 < p.2) ∧
    (∀ k, ∀ p ∈ (allocation_loop
        [⟨"A", 8, 5000⟩, ⟨"B", 2, 1000⟩]
        (([⟨"A", 8, 5000⟩, ⟨"B", 2, 1000⟩] : List Area).take k)
        [("food", 1000), ("water", 5000)] []).2, 0 ≤ p.2) :=
  C2_allocation_conservation_and_nonnegativity
    [⟨"A", 8, 5000⟩, ⟨"B", 2, 1000⟩] [("food", 1000), ("water", 5000)]
    (by decide) (by decide) (by decide) (by decide)

/-! ### Claim C4 -/

/-- C4: publishing to an unregistered identifier returns normally (the
embedded `publish_message` is total: the unroutable branch only logs), leaves
the subscriber registry unchanged, and a subsequent publish to a registered
identifier still delivers; publishing to a registered identifier invokes
exactly that identifier's bound handler (returned as `some`). -/
theorem C4_publish_unroutable_is_non_fatal {H : Type}
    (subscribers : List (String × H)) (m m' : Msg) (h : H)
    (hunreg : dget? subscribers m.to_ = none)
    (hreg : dget? subscribers m'.to_ = some h) :
    (publish_message subscribers m).1 = subscribers ∧
    (publish_message subscribers m).2 = none ∧
    (publish_message subscribers m').2 = some h ∧
    (publish_message (publish_message subscribers m).1 m').2 = some h :=
  ⟨rfl, hunreg, hreg, hreg⟩

/-- Witness for C4: a registry holding only the analytics handler, an
unroutable message to "nobody", then a routable one. -/
theorem C4_publish_unroutable_witness :
    (publish_message [("analytics", (0 : ℕ))]
      (Msg.mk "x" "nobody" 0 {})).1 = [("analytics", 0)] ∧
    (publish_message [("analytics", (0 : ℕ))]
      (Msg.mk "x" "nobody" 0 {})).2 = none ∧
    (publish_message [("analytics", (0 : ℕ))]
      (Msg.mk "x" "analytics" 0 {})).2 = some 0 ∧
    (publish_message (publish_message [("analytics", (0 : ℕ))]
      (Msg.mk "x" "nobody" 0 {})).1
      (Msg.mk "x" "analytics" 0 {})).2 = some 0 :=
  C4_publish_unroutable_is_non_fatal [("analytics", 0)]
    (Msg.mk "x" "nobody" 0 {}) (Msg.mk "x" "analytics" 0 {}) 0
    (by decide) (by decide)

/-! ### Claim C5 -/

/-- C5 as stated is false on the code: `receive_message` can raise.  A
message carrying the recognized tag `"need_assessment"` but no `area_data`
key is malformed, and the relief coordinator's reaction evaluates
`content["area_data"]`, so the `KeyError` propagates to the caller. -/
theorem C5_counterexample_receive_raises_on_malformed_body :
    relief_receive_message 0 sample_context ({} : ReliefState)
      (Msg.mk "analytics" "relief_coordinator" 0
        { tag := some "need_assessment" }) =
      Except.error "KeyError: area_data" :=
  rfl

/-- C5 amended: for every agent variant, a message whose content tag is
absent or unrecognized by that variant is recorded in the agent's message
list and then ignored: `receive_message` returns normally with the rest of
the state unchanged and nothing sent.  (A *recognized* tag with a malformed
body can still raise, as the counterexample shows.) -/
theorem C5_amended_unrecognized_tag_recorded_and_ignored
    (now : ℕ) (randSev randPop : ℕ → ℤ) (ctx : DisasterContext)
    (rst : ReliefState) (vst : VolunteerState) (cst : CommState)
    (ast : AnalyticsState) (m : Msg) :
    (m.content.tag ≠ some "need_assessment" →
      relief_receive_message now ctx rst m =
        Except.ok (ctx, { rst with messages := rst.messages ++ [m] }, [])) ∧
    (m.content.tag ≠ some "new_allocation_plan" →
      vol_receive_message now vst m =
        Except.ok ({ vst with messages := vst.messages ++ [m] }, [])) ∧
    (m.content.tag ≠ some "alert" →
      comm_receive_message now cst m =
        Except.ok ({ cst with messages := cst.messages ++ [m] }, [])) ∧
    (m.content.tag ≠ some "request_area_assessment" →
      m.content.tag ≠ some "new_data" →
      analytics_receive_message now randSev randPop ctx ast m =
        Except.ok ({ ast with messages := ast.messages ++ [m] }, [])) := by
  refine ⟨fun h => ?_, fun h => ?_, fun h => ?_, fun h1 h2 => ?_⟩
  · simp [relief_receive_message, relief_process_message, h]
  · simp [vol_receive_message, vol_process_message, h]
  · simp [comm_receive_message, comm_process_message, h]
  · simp [analytics_receive_message, analytics_process_message, h1, h2]

/-- Witness for C5 (amended) at a concrete unrecognized tag
(`"volunteer_status"`, which no variant reacts to). -/
theorem C5_amended_unrecognized_tag_witness :
    relief_receive_message 0 sample_context ({} : ReliefState)
      (Msg.mk "x" "relief_coordinator" 0 { tag := some "volunteer_status" }) =
      Except.ok (sample_context,
        { messages := [Msg.mk "x" "relief_coordinator" 0
            { tag := some "volunteer_status" }] },
        []) ∧
    vol_receive_message 0 ({} : VolunteerState)
      (Msg.mk "x" "volunteer_coordinator" 0 { tag := some "volunteer_status" }) =
      Except.ok ({ messages := [Msg.mk "x" "volunteer_coordinator" 0
          { tag := some "volunteer_status" }] }, []) ∧
    comm_receive_message 0 ({} : CommState)
      (Msg.mk "x" "communication" 0 { tag := some "volunteer_status" }) =
      Except.ok ({ messages := [Msg.mk "x" "communication" 0
          { tag := some "volunteer_status" }] }, []) ∧
    analytics_receive_message 0 (fun _ => 1) (fun _ => 100) sample_context
      ({} : AnalyticsState)
      (Msg.mk "x" "analytics" 0 { tag := some "volunteer_status" }) =
      Except.ok ({ messages := [Msg.mk "x" "analytics" 0
          { tag := some "volunteer_status" }] }, []) := by
  have h := C5_amended_unrecognized_tag_recorded_and_ignored 0
    (fun _ => 1) (fun _ => 100) sample_context {} {} {} {}
    (Msg.mk "x" "relief_coordinator" 0 { tag := some "volunteer_status" })
  have h2 := C5_amended_unrecognized_tag_recorded_and_ignored 0
    (fun _ => 1) (fun _ => 100) sample_context {} {} {} {}
    (Msg.mk "x" "volunteer_coordinator" 0 { tag := some "volunteer_status" })
  have h3 := C5_amended_unrecognized_tag_recorded_and_ignored 0
    (fun _ => 1) (fun _ => 100) sample_context {} {} {} {}
    (Msg.mk "x" "communication" 0 { tag := some "volunteer_status" })
  have h4 := C5_amended_unrecognized_tag_recorded_and_ignored 0
    (fun _ => 1) (fun _ => 100) sample_context {} {} {} {}
    (Msg.mk "x" "analytics" 0 { tag := some "volunteer_status" })
  exact ⟨h.1 (by decide), h2.2.1 (by decide), h3.2.2.1 (by decide),
    h4.2.2.2 (by decide) (by decide)⟩

/-! ### Claim C6 -/

/-- C6 fails on the code: task ids are
`dist_{area}_{resource}_{int(time.time())}`, wall-clock time alone, so two
allocation plans processed within the same wall-clock second generate
pending tasks with identical ids. -/
theorem C6_task_ids_collide_within_same_second :
    ((generate_distribution_tasks 100
        (generate_distribution_tasks 100 ({} : VolunteerState)
          [("Area_A", [("food", 5)])])
        [("Area_A", [("food", 5)])]).pending_tasks.map Task.id =
      ["dist_Area_A_food_100", "dist_Area_A_food_100"]) ∧
    (((generate_distribution_tasks 100
        (generate_distribution_tasks 100 ({} : VolunteerState)
          [("Area_A", [("food", 5)])])
        [("Area_A", [("food", 5)])]).pending_tasks.map Task.id).Nodup = False) :=
  ⟨by decide, eq_false (by decide)⟩

/-! ### Claim C7 -/

/-- C7 as stated is false on the code: two runs on identical inputs observed
at different wall-clock seconds produce the same AllocationPlan but Task sets
differing in their ids (which embed `int(time.time())`). -/
theorem C7_counterexample_tasks_differ_across_seconds :
    ((run_allocation_pipeline [⟨"A", 1, 1⟩] [("food", 10)] {} 0).1 =
      (run_allocation_pipeline [⟨"A", 1, 1⟩] [("food", 10)] {} 1).1) ∧
    (((run_allocation_pipeline [⟨"A", 1, 1⟩] [("food", 10)] {} 0).2 =
      (run_allocation_pipeline [⟨"A", 1, 1⟩] [("food", 10)] {} 1).2) = False) := by
  constructor
  · rfl
  · apply eq_false
    intro heq
    have hids := congrArg (List.map Task.id) heq
    have h0 : (run_allocation_pipeline [⟨"A", 1, 1⟩] [("food", 10)] {} 0).2.map
        Task.id = ["dist_A_food_0"] := by
      norm_num +decide [run_allocation_pipeline, optimize_resource_allocation,
        allocation_loop, allocate_resources, area_weight, total_priority_weight,
        priorityKey, update_priority_areas, sortByKeyDesc, List.insertionSort,
        List.orderedInsert, pytrunc, dset, generate_distribution_tasks, make_task]
    have h1 : (run_allocation_pipeline [⟨"A", 1, 1⟩] [("food", 10)] {} 1).2.map
        Task.id = ["dist_A_food_1"] := by
      norm_num +decide [run_allocation_pipeline, optimize_resource_allocation,
        allocation_loop, allocate_resources, area_weight, total_priority_weight,
        priorityKey, update_priority_areas, sortByKeyDesc, List.insertionSort,
        List.orderedInsert, pytrunc, dset, generate_distribution_tasks, make_task]
    rw [h0, h1] at hids
    exact absurd hids (by decide)

/-- C7 amended: the embedded run is a function of its inputs and of the
wall-clock second observed during task generation: the AllocationPlans of
two runs on identical inputs are always identical, and when the two runs
also observe the same wall-clock second the Task sets are identical
field-for-field, ids included. -/
theorem C7_amended_determinism (area_data : List Area) (resources : Inv)
    (vst : VolunteerState) (t1 t2 : ℕ) :
    (run_allocation_pipeline area_data resources vst t1).1 =
      (run_allocation_pipeline area_data resources vst t2).1 ∧
    (t1 = t2 →
      run_allocation_pipeline area_data resources vst t1 =
        run_allocation_pipeline area_data resources vst t2) :=
  ⟨rfl, fun h => by rw [h]⟩

/-- Witness for C7 (amended) at a concrete input and equal seconds. -/
theorem C7_amended_determinism_witness :
    (run_allocation_pipeline [⟨"A", 1, 1⟩] [("food", 10)] {} 5).1 =
      (run_allocation_pipeline [⟨"A", 1, 1⟩] [("food", 10)] {} 5).1 ∧
    (5 = 5 →
      run_allocation_pipeline [⟨"A", 1, 1⟩] [("food", 10)] {} 5 =
        run_allocation_pipeline [⟨"A", 1, 1⟩] [("food", 10)] {} 5) :=
  C7_amended_determinism [⟨"A", 1, 1⟩] [("food", 10)] {} 5 5

/-! ### Claim C8 -/

theorem process_new_data_significant (now : ℕ) (ctx : DisasterContext)
    (st : AnalyticsState) (source : String) (data : WeatherData)
    (hdet : detect_significant_change source data = true) :
    process_new_data now ctx st source data =
      (if 7 ≤ (generate_prediction now ctx (pnd_st1 st now source data)
          (some source)).2.risk_level then
        ({ (generate_prediction now ctx (pnd_st1 st now source data)
            (some source)).1 with
          messages := (generate_prediction now ctx (pnd_st1 st now source data)
            (some source)).1.messages ++
            [send_alert now (generate_prediction now ctx
              (pnd_st1 st now source data) (some source)).2] },
          [send_alert now (generate_prediction now ctx
            (pnd_st1 st now source data) (some source)).2])
      else ((generate_prediction now ctx (pnd_st1 st now source data)
          (some source)).1, [])) := by
  simp [process_new_data, hdet, pnd_st1, source_log_after]

theorem generate_prediction_weather_risk (now : ℕ) (ctx : DisasterContext)
    (st1 : AnalyticsState) (log : List Sample)
    (hget : dget? st1.data_sources "weather" = some log)
    (hnn : ∀ s ∈ log, 0 ≤ s.data.wind_speed.getD 0) :
    (generate_prediction now ctx st1 (some "weather")).2.risk_level =
      claim_risk_level log := by
  have hrecent : get_recent_data st1 "weather" 5 =
      (sortByKeyDesc (fun s => (s.timestamp : ℤ)) log).take 5 := by
    simp [get_recent_data, hget]
  have hwin : ∀ s ∈ (sortByKeyDesc (fun s => (s.timestamp : ℤ)) log).take 5,
      0 ≤ s.data.wind_speed.getD 0 := by
    intro s hs
    exact hnn s
      (((sortByKeyDesc_perm _ log).mem_iff).mp (List.mem_of_mem_take hs))
  have havg : 0 ≤ avg_wind_speed
      ((sortByKeyDesc (fun s => (s.timestamp : ℤ)) log).take 5) := by
    unfold avg_wind_speed
    apply div_nonneg
    · apply List.sum_nonneg
      intro x hx
      obtain ⟨s, hs, rfl⟩ := List.mem_map.mp hx
      exact hwin s hs
    · exact_mod_cast Nat.zero_le _
  show min 10 (pytrunc (avg_wind_speed (get_recent_data st1 "weather" 5) / 10)) =
    claim_risk_level log
  rw [hrecent, pytrunc_of_nonneg (div_nonneg havg (by norm_num))]
  rfl

/-- C8: on a new-data message for the weather source: a sample whose wind
speed is not above 50 triggers no alert; a sample with wind speed above 50
triggers exactly one alert message to the communication (broadcast) agent
when the risk level computed as the claim words it — `min(10,
floor(average wind of the up-to-5 most recent samples / 10))` over the log
including the new sample — is at least 7, and no alert when that risk level
is below 7.  (Wind speeds are non-negative, as the hypothesis on the stored
log records.) -/
theorem C8_weather_alert_threshold (now : ℕ) (ctx : DisasterContext)
    (st : AnalyticsState) (data : WeatherData) :
    (data.wind_speed.getD 0 ≤ 50 →
      (process_new_data now ctx st "weather" data).2 = []) ∧
    (50 < data.wind_speed.getD 0 →
      (∀ s ∈ (dget? st.data_sources "weather").getD ([] : List Sample),
        0 ≤ s.data.wind_speed.getD 0) →
      (7 ≤ claim_risk_level (source_log_after st now "weather" data) →
        (process_new_data now ctx st "weather" data).2.map (fun m => m.to_) =
          ["communication"] ∧
        (process_new_data now ctx st "weather" data).2.map
          (fun m => m.content.tag) = [some "alert"]) ∧
      (claim_risk_level (source_log_after st now "weather" data) < 7 →
        (process_new_data now ctx st "weather" data).2 = [])) := by
  constructor
  · intro h
    have hdet : detect_significant_change "weather" data = false :=
      decide_eq_false (fun hc => absurd hc.2 (not_lt.mpr h))
    simp [process_new_data, hdet]
  · intro hw hnn
    have hdet : detect_significant_change "weather" data = true :=
      decide_eq_true ⟨rfl, hw⟩
    have hget : dget? (pnd_st1 st now "weather" data).data_sources "weather" =
        some (source_log_after st now "weather" data) :=
      dget?_dset_self _ _ _
    have hnnlog : ∀ s ∈ source_log_after st now "weather" data,
        0 ≤ s.data.wind_speed.getD 0 := by
      intro s hs
      rcases List.mem_append.mp hs with h | h
      · exact hnn s h
      · have : s = ⟨now, data⟩ := by simpa using h
        rw [this]
        exact le_of_lt (lt_trans (by norm_num) hw)
    have hrisk := generate_prediction_weather_risk now ctx
      (pnd_st1 st now "weather" data) (source_log_after st now "weather" data)
      hget hnnlog
    constructor
    · intro hcl
      have h7 : 7 ≤ (generate_prediction now ctx (pnd_st1 st now "weather" data)
          (some "weather")).2.risk_level := by
        rw [hrisk]
        exact hcl
      rw [process_new_data_significant now ctx st "weather" data hdet,
        if_pos h7]
      constructor
      · rfl
      · rfl
    · intro hcl
      have h7 : ¬ 7 ≤ (generate_prediction now ctx (pnd_st1 st now "weather" data)
          (some "weather")).2.risk_level := by
        rw [hrisk]
        exact not_le.mpr hcl
      rw [process_new_data_significant now ctx st "weather" data hdet,
        if_neg h7]

/-- Witness for C8 at three concrete inputs: wind 10 (no alert), wind 80
over a window averaging 80 (risk 8, exactly one alert to communication),
and wind 60 as the first sample (risk 6, no alert). -/
theorem C8_weather_alert_threshold_witness :
    (process_new_data 0 sample_context ({} : AnalyticsState) "weather"
      { wind_speed := some 10, rainfall := some 5 }).2 = [] ∧
    ((process_new_data 2 sample_context
        { data_sources := [("weather",
            [⟨0, { wind_speed := some 80 }⟩, ⟨1, { wind_speed := some 80 }⟩])] }
        "weather" { wind_speed := some 80 }).2.map (fun m => m.to_) =
      ["communication"]) ∧
    (process_new_data 0 sample_context ({} : AnalyticsState) "weather"
      { wind_speed := some 60, rainfall := some 5 }).2 = [] := by
  refine ⟨?_, ?_, ?_⟩
  · exact (C8_weather_alert_threshold 0 sample_context {}
      { wind_speed := some 10, rainfall := some 5 }).1 (by decide)
  · exact (((C8_weather_alert_threshold 2 sample_context
      { data_sources := [("weather",
          [⟨0, { wind_speed := some 80 }⟩, ⟨1, { wind_speed := some 80 }⟩])] }
      { wind_speed := some 80 }).2 (by decide) (by decide)).1 (by
        norm_num [claim_risk_level, source_log_after, avg_wind_speed,
          sortByKeyDesc, List.insertionSort, List.orderedInsert, dget?,
          List.take])).1
  · exact ((C8_weather_alert_threshold 0 sample_context {}
      { wind_speed := some 60, rainfall := some 5 }).2 (by decide)
        (by decide)).2 (by
        norm_num [claim_risk_level, source_log_after, avg_wind_speed,
          sortByKeyDesc, List.insertionSort, List.orderedInsert, dget?,
          List.take])

/-! ### Claim C9 -/

theorem register_volunteer_skills_not_mem (vid : String) (skills : List String)
    (reg : List (String × List String)) (s : String) (h : s ∉ skills) :
    dget? (register_volunteer_skills vid skills reg) s = dget? reg s := by
  induction skills generalizing reg with
  | nil => rfl
  | cons x rest ih =>
    simp only [List.mem_cons] at h
    push_neg at h
    simp only [register_volunteer_skills]
    rw [ih _ h.2, dget?_dset_ne _ _ _ _ (fun hh => h.1 hh.symm)]

theorem register_volunteer_skills_mem (vid : String) (skills : List String)
    (reg : List (String × List String)) (s : String) (h : s ∈ skills)
    (hnd : skills.Nodup) :
    dget? (register_volunteer_skills vid skills reg) s =
      some (((dget? reg s).getD []) ++ [vid]) := by
  induction skills generalizing reg with
  | nil => cases h
  | cons x rest ih =>
    obtain ⟨hx, hnd'⟩ := List.nodup_cons.mp hnd
    rcases List.mem_cons.mp h with rfl | hs
    · simp only [register_volunteer_skills]
      rw [register_volunteer_skills_not_mem vid rest _ s hx, dget?_dset_self]
    · have hsx : s ≠ x := fun hh => hx (hh ▸ hs)
      simp only [register_volunteer_skills]
      rw [ih _ hs hnd', dget?_dset_ne _ _ _ _ (fun hh => hsx hh.symm)]

/-- C9 fails as stated for the skill index: after registering volunteer
`vol1` with skills `["medical"]` and then re-registering the same id with
skills `["logistics"]`, the skill index still lists `vol1` under
`"medical"`, a skill the latest registration does not declare — the index
reflects both registrations, not only the latest. -/
theorem C9_counterexample_skill_index_keeps_stale_entries :
    (dget? (register_volunteer (register_volunteer ({} : VolunteerState)
        ⟨"vol1", "Volunteer 1", ["medical"], "Base Camp", true⟩)
        ⟨"vol1", "Volunteer 1", ["logistics"], "Base Camp", true⟩).skills_registry
      "medical" = some ["vol1"]) ∧
    (("medical" ∈ (["logistics"] : List String)) = False) :=
  ⟨by decide, eq_false (by decide)⟩

/-- C9 amended: duplicate bus registration overwrites the binding (last
writer wins) and re-registering a volunteer id overwrites the roster record;
but the skill index *accumulates*: each newly declared skill gets the id
appended to its (possibly pre-existing) entry, and entries under skills the
new registration does not declare — including stale entries from the prior
registration of the same id — are left untouched. -/
theorem C9_amended_roster_overwritten_skill_index_accumulates
    (H : Type) (subs : List (String × H)) (agent_id : String) (c1 c2 : H)
    (st : VolunteerState) (v v' : Volunteer)
    (hid : v'.id = v.id) (hnd : v'.skills.Nodup) :
    dget? (subscribe (subscribe subs agent_id c1) agent_id c2) agent_id =
      some c2 ∧
    dget? (register_volunteer (register_volunteer st v) v').available_volunteers
      v.id = some v' ∧
    (∀ s ∈ v'.skills,
      dget? (register_volunteer (register_volunteer st v) v').skills_registry s =
        some (((dget? (register_volunteer st v).skills_registry s).getD []) ++
          [v'.id])) ∧
    (∀ s, s ∉ v'.skills →
      dget? (register_volunteer (register_volunteer st v) v').skills_registry s =
        dget? (register_volunteer st v).skills_registry s) := by
  refine ⟨dget?_dset_self _ _ _, ?_, ?_, ?_⟩
  · show dget? (dset (register_volunteer st v).available_volunteers v'.id v')
      v.id = some v'
    rw [hid]
    exact dget?_dset_self _ _ _
  · intro s hs
    exact register_volunteer_skills_mem v'.id v'.skills _ s hs hnd
  · intro s hs
    exact register_volunteer_skills_not_mem v'.id v'.skills _ s hs

/-- Witness for C9 (amended) at the counterexample's concrete input. -/
theorem C9_amended_overwrite_witness :
    dget? (subscribe (subscribe [] "communication" (0 : ℕ)) "communication" 1)
      "communication" = some 1 ∧
    dget? (register_volunteer (register_volunteer ({} : VolunteerState)
        ⟨"vol1", "Volunteer 1", ["medical"], "Base Camp", true⟩)
        ⟨"vol1", "Volunteer 1", ["logistics"], "Base Camp", true⟩).available_volunteers
      (Volunteer.mk "vol1" "Volunteer 1" ["medical"] "Base Camp" true).id =
      some ⟨"vol1", "Volunteer 1", ["logistics"], "Base Camp", true⟩ ∧
    (∀ s ∈ (Volunteer.mk "vol1" "Volunteer 1" ["logistics"] "Base Camp" true).skills,
      dget? (register_volunteer (register_volunteer ({} : VolunteerState)
          ⟨"vol1", "Volunteer 1", ["medical"], "Base Camp", true⟩)
          ⟨"vol1", "Volunteer 1", ["logistics"], "Base Camp", true⟩).skills_registry
        s =
        some (((dget? (register_volunteer ({} : VolunteerState)
          ⟨"vol1", "Volunteer 1", ["medical"], "Base Camp", true⟩).skills_registry
          s).getD []) ++
          [(Volunteer.mk "vol1" "Volunteer 1" ["logistics"] "Base Camp" true).id])) ∧
    (∀ s, s ∉ (Volunteer.mk "vol1" "Volunteer 1" ["logistics"] "Base Camp" true).skills →
      dget? (register_volunteer (register_volunteer ({} : VolunteerState)
          ⟨"vol1", "Volunteer 1", ["medical"], "Base Camp", true⟩)
          ⟨"vol1", "Volunteer 1", ["logistics"], "Base Camp", true⟩).skills_registry
        s =
        dget? (register_volunteer ({} : VolunteerState)
          ⟨"vol1", "Volunteer 1", ["medical"], "Base Camp", true⟩).skills_registry
        s) :=
  C9_amended_roster_overwritten_skill_index_accumulates ℕ []
    "communication" 0 1 {}
    ⟨"vol1", "Volunteer 1", ["medical"], "Base Camp", true⟩
    ⟨"vol1", "Volunteer 1", ["logistics"], "Base Camp", true⟩
    rfl (by decide)

/-! ### Claim C10 -/

theorem relief_receive_need_assessment (now : ℕ) (ctx : DisasterContext)
    (st : ReliefState) (m : Msg) (ad : List Area)
    (htag : m.content.tag = some "need_assessment")
    (hdata : m.content.area_data = some ad) :
    relief_receive_message now ctx st m =
      Except.ok (ctx,
        { st with
          messages := (st.messages ++ [m]) ++
            [allocation_plan_msg now (optimize_resource_allocation
              (update_priority_areas ad) ctx.resources)],
          priority_areas := update_priority_areas ad,
          resource_allocation_plan := optimize_resource_allocation
            (update_priority_areas ad) ctx.resources },
        [allocation_plan_msg now (optimize_resource_allocation
          (update_priority_areas ad) ctx.resources)]) := by
  simp [relief_receive_message, relief_process_message, htag, hdata]

/-- C10: processing a need-assessment message returns the shared
DisasterContext unchanged in every field (`optimize_resource_allocation`
works on a copy of the resources dict), so a second need-assessment
processed afterwards computes its plan from the same full inventory
`ctx.resources` as the first. -/
theorem C10_optimize_never_mutates_shared_context
    (now1 now2 : ℕ) (ctx : DisasterContext) (st : ReliefState) (m1 m2 : Msg)
    (ad1 ad2 : List Area)
    (h1 : m1.content.tag = some "need_assessment")
    (h1d : m1.content.area_data = some ad1)
    (h2 : m2.content.tag = some "need_assessment")
    (h2d : m2.content.area_data = some ad2) :
    ∃ (st1 st2 : ReliefState) (out1 out2 : List Msg),
      relief_receive_message now1 ctx st m1 = Except.ok (ctx, st1, out1) ∧
      relief_receive_message now2 ctx st1 m2 = Except.ok (ctx, st2, out2) ∧
      st1.resource_allocation_plan =
        optimize_resource_allocation (update_priority_areas ad1) ctx.resources ∧
      st2.resource_allocation_plan =
        optimize_resource_allocation (update_priority_areas ad2) ctx.resources :=
  ⟨_, _, _, _, relief_receive_need_assessment now1 ctx st m1 ad1 h1 h1d,
    relief_receive_need_assessment now2 ctx _ m2 ad2 h2 h2d, rfl, rfl⟩

/-- Witness for C10 at concrete messages carrying one area each. -/
theorem C10_context_frame_witness :
    ∃ (st1 st2 : ReliefState) (out1 out2 : List Msg),
      relief_receive_message 1 sample_context ({} : ReliefState)
        (Msg.mk "analytics" "relief_coordinator" 1
          { tag := some "need_assessment",
            area_data := some [⟨"Los Angeles_Area_1", 5, 2000⟩] }) =
        Except.ok (sample_context, st1, out1) ∧
      relief_receive_message 2 sample_context st1
        (Msg.mk "analytics" "relief_coordinator" 2
          { tag := some "need_assessment",
            area_data := some [⟨"Los Angeles_Area_2", 7, 300⟩] }) =
        Except.ok (sample_context, st2, out2) ∧
      st1.resource_allocation_plan =
        optimize_resource_allocation
          (update_priority_areas [⟨"Los Angeles_Area_1", 5, 2000⟩])
          sample_context.resources ∧
      st2.resource_allocation_plan =
        optimize_resource_allocation
          (update_priority_areas [⟨"Los Angeles_Area_2", 7, 300⟩])
          sample_context.resources :=
  C10_optimize_never_mutates_shared_context 1 2 sample_context {}
    (Msg.mk "analytics" "relief_coordinator" 1
      { tag := some "need_assessment",
        area_data := some [⟨"Los Angeles_Area_1", 5, 2000⟩] })
    (Msg.mk "analytics" "relief_coordinator" 2
      { tag := some "need_assessment",
        area_data := some [⟨"Los Angeles_Area_2", 7, 300⟩] })
    [⟨"Los Angeles_Area_1", 5, 2000⟩] [⟨"Los Angeles_Area_2", 7, 300⟩]
    rfl rfl rfl rfl

end DisasterResponse
